import Mathlib

set_option maxRecDepth 4000

/-!
Verification of the LemmySeeMyHaters backend core: URL-to-identity
resolution, cached aggregate/ledger reads, dynamic query construction,
and offset-based pagination, as implemented in `src/lemmy_db.py`,
`src/data_models.py` and `src/main.py`.

Modelling conventions:
* Python `int` is `Int` (or `Nat` where the source value is a length).
* `datetime` instants and float Unix timestamps are modelled as `Int`
  instants; no claim depends on fractional seconds.
* Python list slicing is modelled by `pySlice`, faithful to Python's
  index clamping for start/stop arguments.
* Database effects are modelled by an explicit environment `Pg` (the
  read-only relational source) plus an event trace recording every
  connection open/close and every read issued.
-/

/-- `data_models.LemmyVote`: one vote row as exposed to clients. -/
structure LemmyVote where
  name : String
  score : Int
  actor_id : String
  created_utc : Int
  deriving DecidableEq, Repr

/-- `data_models.LemmyObjectAggregate`: total score, upvotes, downvotes. -/
structure LemmyObjectAggregate where
  total_score : Int
  upvotes : Int
  downvotes : Int
  deriving DecidableEq, Repr

/-- `data_models.VoteFilter`. -/
inductive VoteFilter where
  | ALL
  | UPVOTES
  | DOWNVOTES
  deriving DecidableEq, Repr

/-- `data_models.SortOption`. -/
inductive SortOption where
  | DATETIME_ASC
  | DATETIME_DESC
  deriving DecidableEq, Repr

/-- The `Literal["Post", "Comment"]` object kind used throughout `lemmy_db.py`. -/
inductive ObjectType where
  | Post
  | Comment
  deriving DecidableEq, Repr

/-- `data_models.VotesResponse`: the boundary response shape. -/
structure VotesResponse where
  votes : List LemmyVote
  total_count : Nat
  next_offset : Option Int
  total_score : Int
  upvotes : Int
  downvotes : Int
  deriving DecidableEq, Repr

/-- Python index clamping for a slice endpoint: a negative index counts
from the end (clamped at 0), a non-negative one is clamped at the length. -/
def pyIndex (len : Nat) (i : Int) : Nat :=
  if i < 0 then ((len : Int) + i).toNat else min i.toNat len

/-- Python `xs[a : b]` for integer endpoints (step 1). -/
def pySlice {α : Type} (xs : List α) (a b : Int) : List α :=
  (xs.drop (pyIndex xs.length a)).take (pyIndex xs.length b - pyIndex xs.length a)

/-- `lemmy_db.paginate_data`: slices a vote list by offset/limit and
computes the next offset, `none` when there are no more items. -/
def paginate_data {α : Type} (all_votes : List α) (offset limit : Int) :
    List α × Option Int :=
  if offset < 0 ∨ offset ≥ (all_votes.length : Int) then
    ([], none)
  else
    let paginated_data := pySlice all_votes offset (offset + limit)
    let next_offset : Option Int :=
      if offset + limit < (all_votes.length : Int) then some (offset + limit)
      else none
    (paginated_data, next_offset)

/-- Repeated pagination driven by the returned cursor, as a client would
chain calls: start at `offset`, follow `next_offset` until it is absent.
`fuel` bounds the recursion; any `fuel ≥ length` is enough when `limit ≥ 1`. -/
def paginate_chain {α : Type} (S : List α) (limit : Int) : Nat → Int → List α
  | 0, _ => []
  | fuel + 1, offset =>
    match paginate_data S offset limit with
    | (page, none) => page
    | (page, some n) => page ++ paginate_chain S limit fuel n

/-- Template of the ledger query in `get_votes_information`, after
`str.format` substitution of the like-table and id-column names
(whitespace exactly as in the Python triple-quoted literal). -/
def votes_query_base (like_tbl idc : String) : String :=
  "\n        SELECT pe.name, content_likes.score, pe.actor_id, content_likes.published\n        FROM public." ++
  like_tbl ++
  " content_likes\n        JOIN public.person pe ON content_likes.person_id = pe.id\n        WHERE content_likes." ++
  idc ++ " = $1\n    "

/-- Template of the aggregate query in `get_votes_information`
(including the trailing spaces present in the Python literal). -/
def agg_query_base (agg_tbl idc : String) : String :=
  "\n        SELECT content_agg.score, content_agg.upvotes, content_agg.downvotes \n        FROM public." ++
  agg_tbl ++
  " content_agg \n        WHERE content_agg." ++ idc ++ " = $1\n        "

/-- Like-table name selected by the object kind. -/
def like_table : ObjectType → String
  | .Post => "post_like"
  | .Comment => "comment_like"

/-- Aggregate-table name selected by the object kind. -/
def agg_table : ObjectType → String
  | .Post => "post_aggregates"
  | .Comment => "comment_aggregates"

/-- Foreign-key column name selected by the object kind. -/
def id_col : ObjectType → String
  | .Post => "post_id"
  | .Comment => "comment_id"

/-- The ledger query text exactly as assembled by `get_votes_information`:
base text, then the author-name clause when a username is supplied, then
the score predicate unless the filter is ALL, then the order-by clause. -/
def build_votes_query (object_type : ObjectType) (username : Option String)
    (votes_filter : VoteFilter) (sort_by : SortOption) : String :=
  let q0 := votes_query_base (like_table object_type) (id_col object_type)
  let q1 := match username with
    | some _ => q0 ++ " AND pe.name ILIKE $2"
    | none => q0
  let q2 := match votes_filter with
    | .ALL => q1
    | .UPVOTES => q1 ++ " AND 1 = content_likes.score"
    | .DOWNVOTES => q1 ++ " AND -1 = content_likes.score"
  q2 ++ " ORDER BY content_likes.published " ++
    (match sort_by with | .DATETIME_ASC => "ASC" | .DATETIME_DESC => "DESC")

/-- The aggregate query text as assembled by `get_votes_information`. -/
def build_agg_query (object_type : ObjectType) : String :=
  agg_query_base (agg_table object_type) (id_col object_type)

/-- `pat` is a leading segment of `s` (character lists). -/
def isPfxOf : List Char → List Char → Bool
  | [], _ => true
  | _ :: _, [] => false
  | a :: as, b :: bs => a == b && isPfxOf as bs

/-- Number of positions of `s` at which `pat` starts. -/
def countOcc (pat : List Char) : List Char → Nat
  | [] => if isPfxOf pat [] then 1 else 0
  | c :: rest => (if isPfxOf pat (c :: rest) then 1 else 0) + countOcc pat rest

/-- Number of occurrences of `pat` inside the string `s`. -/
def strCount (s pat : String) : Nat := countOcc pat.toList s.toList

/-- The string `s` ends with `pat`. -/
def strHasSfx (s pat : String) : Bool :=
  isPfxOf pat.toList.reverse s.toList.reverse

/-- A query parameter as bound by the `asyncpg` fetch calls. -/
inductive QueryParam where
  | intP (n : Int)
  | strP (s : String)
  deriving DecidableEq, Repr

/-- One raw ledger row: voter name, score, actor id, published instant. -/
structure VoteRow where
  name : String
  score : Int
  actor_id : String
  published : Int
  deriving DecidableEq, Repr

/-- A database side effect, recorded in event traces: identity lookup,
aggregate-connection open/close, aggregate read, ledger read. -/
inductive DbEvent where
  | identRead (table : String) (url : String)
  | connOpen
  | aggRead (query : String) (object_local_id : Int)
  | ledgerRead (query : String) (params : List QueryParam)
  | connClose
  deriving DecidableEq, Repr

/-- A Python-level failure crossing the modelled functions:
`fastapi.HTTPException`, the untyped `TypeError` raised by unpacking a
null record, or an `asyncpg` connectivity/query failure. -/
inductive PyError where
  | httpException (status : Nat) (detail : String)
  | typeError
  | dataSourceError
  deriving DecidableEq, Repr

/-- The read-only relational data source: identity rows by ActivityPub
URL for each table, one aggregate row per query/id, and ledger rows per
query/parameter list. -/
structure Pg where
  postIdByApId : String → Option Int
  commentIdByApId : String → Option Int
  aggRow : String → Int → Option (Int × Int × Int)
  fetchRows : String → List QueryParam → List VoteRow

/-- `lemmy_db.get_unix_timestamp`: instants are already modelled as
integer Unix times, so the conversion is the identity. -/
def get_unix_timestamp (published_datetime : Int) : Int := published_datetime

/-- `lemmy_db.get_local_id_from_ap_id` (uncached body): fetch the id row
for the URL from the kind-specific table; raise HTTP 404 when absent. -/
def get_local_id_from_ap_id (db : Pg) (url : String)
    (object_type : ObjectType) : Except PyError Int × List DbEvent :=
  match object_type with
  | .Post =>
    match db.postIdByApId url with
    | none => (.error (.httpException 404 "Could not fetch the object from the URL."),
               [.identRead "post" url])
    | some local_id => (.ok local_id, [.identRead "post" url])
  | .Comment =>
    match db.commentIdByApId url with
    | none => (.error (.httpException 404 "Could not fetch the object from the URL."),
               [.identRead "comment" url])
    | some local_id => (.ok local_id, [.identRead "comment" url])

/-- `lemmy_db.get_aggregates_from_pg` (uncached body): opens a fresh
connection, fetches the aggregate row, and builds the named tuple from
it; the connection is never closed by the source, and a missing row
makes the tuple construction raise `TypeError` (unpacking `None`). -/
def get_aggregates_from_pg (db : Pg) (query : String)
    (object_local_id : Int) : Except PyError LemmyObjectAggregate × List DbEvent :=
  match db.aggRow query object_local_id with
  | none => (.error .typeError, [.connOpen, .aggRead query object_local_id])
  | some (s, u, d) => (.ok ⟨s, u, d⟩, [.connOpen, .aggRead query object_local_id])

/-- `lemmy_db.get_scores_from_pg` (uncached body): one ledger read, with
the identity as sole bound parameter when the username is absent and
with the username as second bound parameter otherwise. -/
def get_scores_from_pg (db : Pg) (query : String) (object_local_id : Int)
    (username : Option String) : Except PyError (List VoteRow) × List DbEvent :=
  match username with
  | none =>
    (.ok (db.fetchRows query [.intP object_local_id]),
     [.ledgerRead query [.intP object_local_id]])
  | some u =>
    (.ok (db.fetchRows query [.intP object_local_id, .strP u]),
     [.ledgerRead query [.intP object_local_id, .strP u]])

/-- The parameter list `get_scores_from_pg` binds for a given identity
and optional username. -/
def score_params (object_local_id : Int) (username : Option String) :
    List QueryParam :=
  match username with
  | none => [.intP object_local_id]
  | some u => [.intP object_local_id, .strP u]

/-- The list comprehension of `get_votes_information` mapping a raw
record to a `LemmyVote`. -/
def lemmy_vote_of_record (r : VoteRow) : LemmyVote :=
  ⟨r.name, r.score, r.actor_id, get_unix_timestamp r.published⟩

/-- `lemmy_db.get_votes_information`: build both query texts, resolve the
identity (propagating its 404), fan out the aggregate and ledger reads,
and map the raw rows to domain votes. -/
def get_votes_information (db : Pg) (url : String) (object_type : ObjectType)
    (votes_filter : VoteFilter) (sort_by : SortOption)
    (username : Option String) :
    Except PyError (LemmyObjectAggregate × List LemmyVote) × List DbEvent :=
  let votes_query := build_votes_query object_type username votes_filter sort_by
  let agg_query := build_agg_query object_type
  match get_local_id_from_ap_id db url object_type with
  | (.error e, tr) => (.error e, tr)
  | (.ok object_local_id, tr) =>
    let agg := get_aggregates_from_pg db agg_query object_local_id
    let sco := get_scores_from_pg db votes_query object_local_id username
    let tr2 := tr ++ agg.2 ++ sco.2
    match agg.1, sco.1 with
    | .error e, _ => (.error e, tr2)
    | .ok _, .error e => (.error e, tr2)
    | .ok a, .ok rows => (.ok (a, rows.map lemmy_vote_of_record), tr2)

/-- `main.post_votes`, success path of the upstream URL validation
(`lemmy_search` returning 200; that external HTTP check is outside the
modelled core): fetch the aggregate and full vote list, then paginate. -/
def post_votes (db : Pg) (url : String) (offset limit : Int)
    (votes_filter : VoteFilter) (sort_by : SortOption)
    (username : Option String) : Except PyError VotesResponse :=
  match (get_votes_information db url .Post votes_filter sort_by username).1 with
  | .error e => .error e
  | .ok (obj_agg, all_votes) =>
    let pr := paginate_data all_votes offset limit
    .ok ⟨pr.1, all_votes.length, pr.2,
         obj_agg.total_score, obj_agg.upvotes, obj_agg.downvotes⟩

/-- Modelled from the spec: the `alru_cache` decorator applied to the
three readers is the third-party `async_lru` library, absent from src/;
per the spec it is a memoizing cache with TTL and capacity — a bounded
mapping from key to (value, insertion time), most recently used first,
with least-recently-used eviction; an entry is fresh at time `now` while
`now < insertion time + ttl`; a raised exception is not retained as a
cached value (failures are "never cached as a negative result"). -/
structure TtlCache (κ α : Type) where
  ttl : Nat
  maxsize : Nat
  entries : List (κ × α × Nat)

/-- Find the entry for `k`: its value and insertion time. -/
def cacheLookup {κ α : Type} [DecidableEq κ] (k : κ) :
    List (κ × α × Nat) → Option (α × Nat)
  | [] => none
  | (k2, v, t) :: rest => if k = k2 then some (v, t) else cacheLookup k rest

/-- Drop any entry for `k`. -/
def cacheErase {κ α : Type} [DecidableEq κ] (k : κ)
    (es : List (κ × α × Nat)) : List (κ × α × Nat) :=
  es.filter (fun e => decide (e.1 ≠ k))

/-- One call through an `alru_cache`-style decorator whose wrapped
computation may raise: returns the outcome, the number of data-source
reads performed (0 on a fresh hit, 1 on a miss), and the next cache
state. A fresh hit recomputes nothing; a miss runs the computation, and
stores the value (bounded by `maxsize`, evicting from the least recently
used end) unless it raised. -/
def cachedCallE {κ α : Type} [DecidableEq κ] (c : TtlCache κ α) (now : Nat)
    (k : κ) (compute : Except PyError α) :
    Except PyError α × Nat × TtlCache κ α :=
  let miss := fun (_ : Unit) =>
    match compute with
    | .error e => ((.error e : Except PyError α), 1, c)
    | .ok v =>
      (.ok v, 1,
       { c with entries := ((k, v, now) :: cacheErase k c.entries).take c.maxsize })
  match cacheLookup k c.entries with
  | some (v, t) =>
    if now < t + c.ttl then
      (.ok v, 0, { c with entries := (k, v, t) :: cacheErase k c.entries })
    else miss ()
  | none => miss ()

/-- `get_local_id_from_ap_id` under its `alru_cache(ttl=180, maxsize=256)`
decorator: the source-level cache key is (url, object kind); the shared
connection argument is ambient. -/
def get_local_id_from_ap_id_cached (db : Pg)
    (c : TtlCache (String × ObjectType) Int) (now : Nat)
    (url : String) (object_type : ObjectType) :
    Except PyError Int × Nat × TtlCache (String × ObjectType) Int :=
  cachedCallE c now (url, object_type) (get_local_id_from_ap_id db url object_type).1

/-- `get_aggregates_from_pg` under its `alru_cache(ttl=180, maxsize=256)`
decorator, keyed by (query text, identity). -/
def get_aggregates_from_pg_cached (db : Pg)
    (c : TtlCache (String × Int) LemmyObjectAggregate) (now : Nat)
    (query : String) (object_local_id : Int) :
    Except PyError LemmyObjectAggregate × Nat × TtlCache (String × Int) LemmyObjectAggregate :=
  cachedCallE c now (query, object_local_id) (get_aggregates_from_pg db query object_local_id).1

/-- `get_scores_from_pg` under its `alru_cache(ttl=60, maxsize=256)`
decorator, keyed by (query text, identity, username). -/
def get_scores_from_pg_cached (db : Pg)
    (c : TtlCache (String × Int × Option String) (List VoteRow)) (now : Nat)
    (query : String) (object_local_id : Int) (username : Option String) :
    Except PyError (List VoteRow) × Nat × TtlCache (String × Int × Option String) (List VoteRow) :=
  cachedCallE c now (query, object_local_id, username) (get_scores_from_pg db query object_local_id username).1

/-- An initially empty identity-resolution cache with the decorator
parameters of the source (`ttl=180, maxsize=256`). -/
def identCache0 : TtlCache (String × ObjectType) Int := ⟨180, 256, []⟩

/-- An initially empty aggregate cache (`ttl=180, maxsize=256`). -/
def aggCache0 : TtlCache (String × Int) LemmyObjectAggregate := ⟨180, 256, []⟩

/-- An initially empty ledger cache (`ttl=60, maxsize=256`). -/
def scoresCache0 : TtlCache (String × Int × Option String) (List VoteRow) := ⟨60, 256, []⟩

/-- A federated post URL used by the concrete fixtures. -/
def samplePostUrl : String := "https://lemmy.example/post/1"

/-- Ledger rows returned by the sample data source. -/
def sampleRows : List VoteRow :=
  [⟨"carol", 1, "https://c.example/u/carol", 30⟩,
   ⟨"bob", -1, "https://b.example/u/bob", 20⟩,
   ⟨"alice", 1, "https://a.example/u/alice", 10⟩]

/-- A small concrete data source used by the witnesses: one known post
URL resolving to local id 7, whose aggregate row is (2, 3, 1). -/
def sampleDb : Pg where
  postIdByApId := fun u => if u = samplePostUrl then some 7 else none
  commentIdByApId := fun _ => none
  aggRow := fun _ i => if i = 7 then some (2, 3, 1) else none
  fetchRows := fun _ _ => sampleRows

/-- A small concrete vote list used by the witnesses. -/
def sampleVotes : List LemmyVote :=
  [⟨"alice", 1, "https://a.example/u/alice", 10⟩,
   ⟨"bob", -1, "https://b.example/u/bob", 20⟩,
   ⟨"carol", 1, "https://c.example/u/carol", 30⟩]

/-- The identity row the resolver consults for a URL, by object kind. -/
def lookupApId (db : Pg) (ot : ObjectType) (url : String) : Option Int :=
  match ot with
  | .Post => db.postIdByApId url
  | .Comment => db.commentIdByApId url

-- Basic facts about `paginate_data` in the in-range case.

theorem pyIndex_of_nonneg_lt {len : Nat} {i : Int} (h0 : 0 ≤ i)
    (h1 : i < (len : Int)) : pyIndex len i = i.toNat := by
  unfold pyIndex
  rw [if_neg (by omega)]
  omega

theorem pyIndex_of_ge {len : Nat} {i : Int} (h0 : 0 ≤ i)
    (h1 : (len : Int) ≤ i) : pyIndex len i = len := by
  unfold pyIndex
  rw [if_neg (by omega)]
  omega

theorem paginate_data_out_of_range {α : Type} (votes : List α)
    (offset limit : Int) (h : offset < 0 ∨ offset ≥ (votes.length : Int)) :
    paginate_data votes offset limit = ([], none) := by
  unfold paginate_data
  rw [if_pos h]

theorem paginate_data_in_range {α : Type} (votes : List α)
    (offset limit : Int) (h0 : 0 ≤ offset) (h1 : offset < (votes.length : Int)) :
    paginate_data votes offset limit =
      (pySlice votes offset (offset + limit),
       if offset + limit < (votes.length : Int) then some (offset + limit) else none) := by
  unfold paginate_data
  rw [if_neg (by omega)]

theorem pySlice_eq_drop_take {α : Type} (votes : List α) (offset limit : Int)
    (hl : 1 ≤ limit) (h0 : 0 ≤ offset) (h1 : offset < (votes.length : Int)) :
    pySlice votes offset (offset + limit) =
      (votes.drop offset.toNat).take limit.toNat := by
  unfold pySlice
  rw [pyIndex_of_nonneg_lt h0 h1]
  by_cases hc : offset + limit < (votes.length : Int)
  · rw [pyIndex_of_nonneg_lt (by omega) hc]
    congr 1
    omega
  · rw [pyIndex_of_ge (by omega) (by omega)]
    have hlen : (votes.drop offset.toNat).length = votes.length - offset.toNat :=
      List.length_drop _ _
    rw [List.take_of_length_le (by omega), List.take_of_length_le (by omega)]

/-- C1: for every vote list, offset and limit ≥ 1, `paginate_data` returns
an empty page and an absent next offset when the offset is negative or at
least the list length; otherwise the page is the slice of `limit` items
starting at `offset` (so its length is `min limit (length - offset)`), and
the next offset is `offset + limit` exactly when that is still below the
list length. -/
theorem paginate_data_spec (votes : List LemmyVote) (offset limit : Int)
    (hl : 1 ≤ limit) :
    ((offset < 0 ∨ (votes.length : Int) ≤ offset) →
        paginate_data votes offset limit = ([], none)) ∧
    (0 ≤ offset → offset < (votes.length : Int) →
      (paginate_data votes offset limit).1 =
          (votes.drop offset.toNat).take limit.toNat ∧
      ((paginate_data votes offset limit).1).length =
          min limit.toNat (votes.length - offset.toNat) ∧
      (paginate_data votes offset limit).2 =
          (if offset + limit < (votes.length : Int) then some (offset + limit)
           else none)) := by
  constructor
  · intro h
    exact paginate_data_out_of_range votes offset limit (by omega)
  · intro h0 h1
    rw [paginate_data_in_range votes offset limit h0 h1]
    refine ⟨pySlice_eq_drop_take votes offset limit hl h0 h1, ?_, rfl⟩
    rw [pySlice_eq_drop_take votes offset limit hl h0 h1]
    simp [List.length_take, List.length_drop]

/-- Witness for C1 at a concrete in-range input. -/
theorem paginate_data_spec_witness :
    (1 : Int) ≤ 2 ∧ (0 : Int) ≤ 1 ∧ (1 : Int) < (sampleVotes.length : Int) ∧
    (paginate_data sampleVotes 1 2).1 =
      (sampleVotes.drop (1 : Int).toNat).take (2 : Int).toNat := by
  refine ⟨by decide, by decide, by decide, ?_⟩
  exact ((paginate_data_spec sampleVotes 1 2 (by decide)).2 (by decide) (by decide)).1

/-- C9: whenever `paginate_data` returns a present next offset `n` (for a
limit ≥ 1), then `offset < n < length`, so cursor chaining strictly
increases the offset and stays inside the list. -/
theorem paginate_data_next_offset_bounds (votes : List LemmyVote)
    (offset limit n : Int) (hl : 1 ≤ limit)
    (h : (paginate_data votes offset limit).2 = some n) :
    offset < n ∧ n < (votes.length : Int) := by
  unfold paginate_data at h
  by_cases hr : offset < 0 ∨ offset ≥ (votes.length : Int)
  · rw [if_pos hr] at h
    exact absurd h (by simp)
  · rw [if_neg hr] at h
    simp only at h
    by_cases hc : offset + limit < (votes.length : Int)
    · rw [if_pos hc] at h
      have hn : n = offset + limit := by
        have := h
        simpa using this.symm
      omega
    · rw [if_neg hc] at h
      exact absurd h (by simp)

/-- Witness for C9 at a concrete input. -/
theorem paginate_data_next_offset_bounds_witness :
    (paginate_data sampleVotes 0 2).2 = some 2 ∧
    (0 : Int) < 2 ∧ (2 : Int) < (sampleVotes.length : Int) := by
  refine ⟨by decide, ?_⟩
  exact paginate_data_next_offset_bounds sampleVotes 0 2 2 (by decide) (by decide)

theorem paginate_chain_drop {α : Type} (S : List α) (limit : Int)
    (hl : 1 ≤ limit) :
    ∀ (fuel : Nat) (offset : Int), 0 ≤ offset →
      (S.length : Int) ≤ offset + fuel →
      paginate_chain S limit fuel offset = S.drop offset.toNat := by
  intro fuel
  induction fuel with
  | zero =>
    intro offset h0 hf
    have : S.length ≤ offset.toNat := by omega
    rw [List.drop_eq_nil_of_le this]
    rfl
  | succ fuel ih =>
    intro offset h0 hf
    by_cases hr : offset < (S.length : Int)
    · by_cases hc : offset + limit < (S.length : Int)
      · have hrec := ih (offset + limit) (by omega) (by push_cast at hf; omega)
        have : paginate_chain S limit (fuel + 1) offset =
            pySlice S offset (offset + limit) ++ paginate_chain S limit fuel (offset + limit) := by
          conv_lhs => rw [paginate_chain]
          rw [paginate_data_in_range S offset limit h0 hr, if_pos hc]
        rw [this, hrec, pySlice_eq_drop_take S offset limit hl h0 hr]
        have hsplit : S.drop (offset + limit).toNat =
            (S.drop offset.toNat).drop limit.toNat := by
          rw [List.drop_drop]
          congr 1
          omega
        rw [hsplit, List.take_append_drop]
      · have : paginate_chain S limit (fuel + 1) offset =
            pySlice S offset (offset + limit) := by
          unfold paginate_chain
          rw [paginate_data_in_range S offset limit h0 hr, if_neg hc]
        rw [this, pySlice_eq_drop_take S offset limit hl h0 hr]
        apply List.take_of_length_le
        rw [List.length_drop]
        omega
    · have : paginate_chain S limit (fuel + 1) offset = [] := by
        unfold paginate_chain
        rw [paginate_data_out_of_range S offset limit (by omega)]
      rw [this, List.drop_eq_nil_of_le (by omega)]

/-- C6: chaining `paginate_data` from offset 0 with a fixed limit ≥ 1,
following each returned next offset until it is absent, concatenates to
exactly the original list: every element once, in order. -/
theorem paginate_chain_eq_self (S : List LemmyVote) (limit : Int)
    (hl : 1 ≤ limit) (fuel : Nat) (hf : S.length ≤ fuel) :
    paginate_chain S limit fuel 0 = S := by
  have h := paginate_chain_drop S limit hl fuel 0 le_rfl (by omega)
  simpa using h

/-- Witness for C6 at a concrete input. -/
theorem paginate_chain_eq_self_witness :
    (1 : Int) ≤ 2 ∧ sampleVotes.length ≤ 3 ∧
    paginate_chain sampleVotes 2 3 0 = sampleVotes := by
  refine ⟨by decide, by decide, ?_⟩
  exact paginate_chain_eq_self sampleVotes 2 (by decide) 3 (by decide)

/-- C3: in the assembled ledger query text, the ALL filter contributes no
score predicate, UPVOTES contributes exactly the `1 = content_likes.score`
predicate, DOWNVOTES exactly the `-1 = content_likes.score` predicate, and
the text ends with an order-by on the vote creation-time column, ascending
for `DATETIME_ASC` and descending for `DATETIME_DESC`. -/
theorem build_votes_query_some_const (ot : ObjectType) (f : VoteFilter)
    (srt : SortOption) (u : String) :
    build_votes_query ot (some u) f srt = build_votes_query ot (some "") f srt :=
  rfl

theorem build_votes_query_filter_sort_spec (ot : ObjectType)
    (un : Option String) (f : VoteFilter) (srt : SortOption) :
    (f = .ALL →
      strCount (build_votes_query ot un f srt) "= content_likes.score" = 0) ∧
    (f = .UPVOTES →
      strCount (build_votes_query ot un f srt) " AND 1 = content_likes.score" = 1 ∧
      strCount (build_votes_query ot un f srt) "= content_likes.score" = 1) ∧
    (f = .DOWNVOTES →
      strCount (build_votes_query ot un f srt) " AND -1 = content_likes.score" = 1 ∧
      strCount (build_votes_query ot un f srt) "= content_likes.score" = 1) ∧
    strHasSfx (build_votes_query ot un f srt)
      (" ORDER BY content_likes.published " ++
        (if srt = .DATETIME_ASC then "ASC" else "DESC")) = true := by
  cases ot <;> cases srt <;> cases f <;> rcases un with _ | u <;>
    (try rw [build_votes_query_some_const]) <;> decide

/-- Witness for C3 at a concrete input. -/
theorem build_votes_query_filter_sort_spec_witness :
    VoteFilter.UPVOTES = VoteFilter.UPVOTES ∧
    strCount (build_votes_query .Post none .UPVOTES .DATETIME_ASC)
      " AND 1 = content_likes.score" = 1 :=
  ⟨rfl,
   ((build_votes_query_filter_sort_spec .Post none .UPVOTES .DATETIME_ASC).2.1
      rfl).1⟩

/-- C4: when an author name is supplied, the assembled ledger query
carries exactly one case-insensitive (`ILIKE`) voter-name predicate bound
as a second parameter, and the ledger read binds both the identity and
the name; when the name is absent the query has no second parameter and
the read binds the identity alone. -/
theorem author_name_binding_spec (db : Pg) (ot : ObjectType)
    (f : VoteFilter) (srt : SortOption) (q : String) (object_local_id : Int) :
    (∀ u : String,
      strCount (build_votes_query ot (some u) f srt) " AND pe.name ILIKE $2" = 1 ∧
      (get_scores_from_pg db q object_local_id (some u)).2 =
        [.ledgerRead q [.intP object_local_id, .strP u]]) ∧
    (strCount (build_votes_query ot none f srt) "$2" = 0 ∧
     (get_scores_from_pg db q object_local_id none).2 =
        [.ledgerRead q [.intP object_local_id]]) := by
  refine ⟨fun u => ⟨?_, rfl⟩, ?_, rfl⟩
  · rw [build_votes_query_some_const]
    cases ot <;> cases f <;> cases srt <;> decide
  · cases ot <;> cases f <;> cases srt <;> decide

/-- Witness for C4 at a concrete input. -/
theorem author_name_binding_spec_witness :
    strCount (build_votes_query .Post (some "alice") .ALL .DATETIME_DESC)
      " AND pe.name ILIKE $2" = 1 ∧
    (get_scores_from_pg sampleDb "q" 7 (some "alice")).2 =
      [.ledgerRead "q" [.intP 7, .strP "alice"]] :=
  (author_name_binding_spec sampleDb .Post .ALL .DATETIME_DESC "q" 7).1 "alice"

/-- C2: when the identity lookup has no row for the URL, the whole
retrieval fails with the 404 `HTTPException` and its trace records no
ledger read, no aggregate read and no aggregate connection; when a row
exists, the resolver returns its id without failing. -/
theorem identity_resolution_404_spec (db : Pg) (url : String)
    (ot : ObjectType) (f : VoteFilter) (srt : SortOption)
    (un : Option String) :
    (lookupApId db ot url = none →
      (get_votes_information db url ot f srt un).1 =
        .error (.httpException 404 "Could not fetch the object from the URL.") ∧
      ∀ e ∈ (get_votes_information db url ot f srt un).2,
        (∀ q ps, e ≠ .ledgerRead q ps) ∧ (∀ q i, e ≠ .aggRead q i) ∧
        e ≠ .connOpen) ∧
    (∀ local_id, lookupApId db ot url = some local_id →
      (get_local_id_from_ap_id db url ot).1 = .ok local_id) := by
  cases ot <;>
  · constructor
    · intro h
      simp only [lookupApId] at h
      constructor
      · simp [get_votes_information, get_local_id_from_ap_id, h]
      · intro e he
        simp [get_votes_information, get_local_id_from_ap_id, h] at he
        subst he
        exact ⟨fun q ps => by simp, fun q i => by simp, by simp⟩
    · intro local_id h
      simp only [lookupApId] at h
      simp [get_local_id_from_ap_id, h]

/-- Witness for C2 at a concrete unresolvable URL. -/
theorem identity_resolution_404_spec_witness :
    lookupApId sampleDb .Post "https://nowhere.example/x" = none ∧
    (get_votes_information sampleDb "https://nowhere.example/x" .Post
        .ALL .DATETIME_DESC none).1 =
      .error (.httpException 404 "Could not fetch the object from the URL.") := by
  refine ⟨by decide, ?_⟩
  exact ((identity_resolution_404_spec sampleDb "https://nowhere.example/x"
    .Post .ALL .DATETIME_DESC none).1 (by decide)).1

/-- C5 (violated by the source): `get_aggregates_from_pg` opens a fresh
connection on every invocation and no exit path ever closes it — there is
no close call, context manager or try/finally — so the connection is
still open after the fetch completes or fails. -/
theorem aggregate_connection_never_closed (db : Pg) (q : String) (i : Int) :
    DbEvent.connOpen ∈ (get_aggregates_from_pg db q i).2 ∧
    DbEvent.connClose ∉ (get_aggregates_from_pg db q i).2 := by
  cases hrow : db.aggRow q i with
  | none => simp [get_aggregates_from_pg, hrow]
  | some t =>
    obtain ⟨s, u, d⟩ := t
    simp [get_aggregates_from_pg, hrow]

/-- C10: with a resolved identity whose aggregate lookup returns no row,
the aggregate fetch fails with the untyped `TypeError` from unpacking a
null record, which is neither the 404 `HTTPException` nor a data-source
error, so the caller cannot classify it as either documented failure. -/
theorem aggregate_null_record_type_error (db : Pg) (q : String) (i : Int)
    (h : db.aggRow q i = none) :
    (get_aggregates_from_pg db q i).1 = .error .typeError ∧
    (∀ s d, (PyError.typeError : PyError) ≠ .httpException s d) ∧
    (PyError.typeError : PyError) ≠ .dataSourceError := by
  refine ⟨?_, fun s d => by simp, by simp⟩
  simp [get_aggregates_from_pg, h]

/-- Witness for C10 at a concrete input. -/
theorem aggregate_null_record_type_error_witness :
    sampleDb.aggRow "q" 99 = none ∧
    (get_aggregates_from_pg sampleDb "q" 99).1 = .error .typeError := by
  refine ⟨by decide, ?_⟩
  exact (aggregate_null_record_type_error sampleDb "q" 99 (by decide)).1

/-- C8: with the identity resolved and the aggregate row present, the
orchestrator returns the aggregate together with the full (unpaginated)
mapped ledger sequence, and the boundary operation reports a total count
equal to that full sequence's length — independent of offset and limit —
with its page and next offset exactly `paginate_data` of the full
sequence at the request's offset and limit. -/
theorem post_votes_paginates_full_sequence (db : Pg) (url : String)
    (f : VoteFilter) (srt : SortOption) (un : Option String)
    (offset limit : Int) (object_local_id s u d : Int)
    (hid : db.postIdByApId url = some object_local_id)
    (hagg : db.aggRow (build_agg_query .Post) object_local_id = some (s, u, d)) :
    (get_votes_information db url .Post f srt un).1 =
      .ok (⟨s, u, d⟩,
        (db.fetchRows (build_votes_query .Post un f srt)
            (score_params object_local_id un)).map lemmy_vote_of_record) ∧
    (∀ (agg : LemmyObjectAggregate) (all_votes : List LemmyVote),
      (get_votes_information db url .Post f srt un).1 = .ok (agg, all_votes) →
      post_votes db url offset limit f srt un =
        .ok ⟨(paginate_data all_votes offset limit).1, all_votes.length,
             (paginate_data all_votes offset limit).2,
             agg.total_score, agg.upvotes, agg.downvotes⟩) := by
  constructor
  · cases un <;>
      simp [get_votes_information, get_local_id_from_ap_id,
        get_aggregates_from_pg, get_scores_from_pg, score_params, hid, hagg]
  · intro agg all_votes h
    unfold post_votes
    rw [h]

/-- Witness for C8 at the concrete sample data source. -/
theorem post_votes_paginates_full_sequence_witness :
    sampleDb.postIdByApId samplePostUrl = some 7 ∧
    sampleDb.aggRow (build_agg_query .Post) 7 = some (2, 3, 1) ∧
    (get_votes_information sampleDb samplePostUrl .Post .ALL
        .DATETIME_DESC none).1 =
      .ok (⟨2, 3, 1⟩,
        (sampleDb.fetchRows (build_votes_query .Post none .ALL .DATETIME_DESC)
            (score_params 7 none)).map lemmy_vote_of_record) := by
  refine ⟨by decide, by decide, ?_⟩
  exact (post_votes_paginates_full_sequence sampleDb samplePostUrl .ALL
    .DATETIME_DESC none 0 50 7 2 3 1 (by decide) (by decide)).1

theorem cacheLookup_take_cons {κ α : Type} [DecidableEq κ] (k : κ) (v : α)
    (t : Nat) (l : List (κ × α × Nat)) (m : Nat) (hm : 1 ≤ m) :
    cacheLookup k (((k, v, t) :: l).take m) = some (v, t) := by
  obtain ⟨m2, rfl⟩ : ∃ m2, m = m2 + 1 := ⟨m - 1, by omega⟩
  simp [List.take_succ_cons, cacheLookup]

theorem cachedCallE_ttl_behavior {κ α : Type} [DecidableEq κ]
    (c : TtlCache κ α) (t0 t1 : Nat) (k : κ)
    (compute1 compute2 : Except PyError α) (v : α)
    (hmax : 1 ≤ c.maxsize)
    (h1 : (cachedCallE c t0 k compute1).1 = .ok v)
    (hread : (cachedCallE c t0 k compute1).2.1 = 1) :
    (t1 < t0 + c.ttl →
      (cachedCallE ((cachedCallE c t0 k compute1).2.2) t1 k compute2).1 = .ok v ∧
      (cachedCallE ((cachedCallE c t0 k compute1).2.2) t1 k compute2).2.1 = 0) ∧
    (t0 + c.ttl ≤ t1 →
      (cachedCallE ((cachedCallE c t0 k compute1).2.2) t1 k compute2).2.1 = 1) := by
  have hkey : compute1 = .ok v ∧
      (cachedCallE c t0 k compute1).2.2 =
        { c with entries := ((k, v, t0) :: cacheErase k c.entries).take c.maxsize } := by
    cases hlk : cacheLookup k c.entries with
    | none =>
      cases compute1 with
      | error e => simp [cachedCallE, hlk] at h1
      | ok w =>
        simp [cachedCallE, hlk] at h1
        subst h1
        exact ⟨rfl, by simp [cachedCallE, hlk]⟩
    | some vt =>
      obtain ⟨w, t⟩ := vt
      by_cases hf : t0 < t + c.ttl
      · simp [cachedCallE, hlk, hf] at hread
      · cases compute1 with
        | error e => simp [cachedCallE, hlk, hf] at h1
        | ok w2 =>
          simp [cachedCallE, hlk, hf] at h1
          subst h1
          exact ⟨rfl, by simp [cachedCallE, hlk, hf]⟩
  obtain ⟨hcomp, hc1⟩ := hkey
  rw [hc1]
  have hlk2 : cacheLookup k (((k, v, t0) :: cacheErase k c.entries).take c.maxsize) =
      some (v, t0) := cacheLookup_take_cons k v t0 _ c.maxsize hmax
  constructor
  · intro ht
    constructor <;> simp [cachedCallE, hlk2, ht]
  · intro ht
    have hnf : ¬ (t1 < t0 + c.ttl) := by omega
    cases compute2 with
    | error e => simp [cachedCallE, hlk2, hnf]
    | ok w => simp [cachedCallE, hlk2, hnf]

/-- C7: for each memoized reader — identity resolution (TTL 180, capacity
256), aggregate reads (TTL 180, capacity 256), ledger reads (TTL 60,
capacity 256) — a second request with the same key before the TTL elapses
performs no second data-source read and returns the cached value, and a
request at or after TTL expiry performs exactly one fresh read. -/
theorem cached_readers_ttl_spec (db : Pg) :
    (∀ (c : TtlCache (String × ObjectType) Int) (t0 t1 : Nat)
       (url : String) (ot : ObjectType) (i : Int),
      c.ttl = 180 → c.maxsize = 256 →
      (get_local_id_from_ap_id_cached db c t0 url ot).1 = .ok i →
      (get_local_id_from_ap_id_cached db c t0 url ot).2.1 = 1 →
      (t1 < t0 + 180 →
        (get_local_id_from_ap_id_cached db
            ((get_local_id_from_ap_id_cached db c t0 url ot).2.2)
            t1 url ot).1 = .ok i ∧
        (get_local_id_from_ap_id_cached db
            ((get_local_id_from_ap_id_cached db c t0 url ot).2.2)
            t1 url ot).2.1 = 0) ∧
      (t0 + 180 ≤ t1 →
        (get_local_id_from_ap_id_cached db
            ((get_local_id_from_ap_id_cached db c t0 url ot).2.2)
            t1 url ot).2.1 = 1)) ∧
    (∀ (c : TtlCache (String × Int) LemmyObjectAggregate) (t0 t1 : Nat)
       (q : String) (i : Int) (a : LemmyObjectAggregate),
      c.ttl = 180 → c.maxsize = 256 →
      (get_aggregates_from_pg_cached db c t0 q i).1 = .ok a →
      (get_aggregates_from_pg_cached db c t0 q i).2.1 = 1 →
      (t1 < t0 + 180 →
        (get_aggregates_from_pg_cached db
            ((get_aggregates_from_pg_cached db c t0 q i).2.2) t1 q i).1 = .ok a ∧
        (get_aggregates_from_pg_cached db
            ((get_aggregates_from_pg_cached db c t0 q i).2.2) t1 q i).2.1 = 0) ∧
      (t0 + 180 ≤ t1 →
        (get_aggregates_from_pg_cached db
            ((get_aggregates_from_pg_cached db c t0 q i).2.2) t1 q i).2.1 = 1)) ∧
    (∀ (c : TtlCache (String × Int × Option String) (List VoteRow)) (t0 t1 : Nat)
       (q : String) (i : Int) (un : Option String) (rows : List VoteRow),
      c.ttl = 60 → c.maxsize = 256 →
      (get_scores_from_pg_cached db c t0 q i un).1 = .ok rows →
      (get_scores_from_pg_cached db c t0 q i un).2.1 = 1 →
      (t1 < t0 + 60 →
        (get_scores_from_pg_cached db
            ((get_scores_from_pg_cached db c t0 q i un).2.2) t1 q i un).1 = .ok rows ∧
        (get_scores_from_pg_cached db
            ((get_scores_from_pg_cached db c t0 q i un).2.2) t1 q i un).2.1 = 0) ∧
      (t0 + 60 ≤ t1 →
        (get_scores_from_pg_cached db
            ((get_scores_from_pg_cached db c t0 q i un).2.2) t1 q i un).2.1 = 1)) := by
  refine ⟨?_, ?_, ?_⟩
  · intro c t0 t1 url ot i httl hmax h1 hread
    have h := cachedCallE_ttl_behavior c t0 t1 (url, ot)
      ((get_local_id_from_ap_id db url ot).1)
      ((get_local_id_from_ap_id db url ot).1) i (by omega) h1 hread
    rw [httl] at h
    exact h
  · intro c t0 t1 q i a httl hmax h1 hread
    have h := cachedCallE_ttl_behavior c t0 t1 (q, i)
      ((get_aggregates_from_pg db q i).1)
      ((get_aggregates_from_pg db q i).1) a (by omega) h1 hread
    rw [httl] at h
    exact h
  · intro c t0 t1 q i un rows httl hmax h1 hread
    have h := cachedCallE_ttl_behavior c t0 t1 (q, i, un)
      ((get_scores_from_pg db q i un).1)
      ((get_scores_from_pg db q i un).1) rows (by omega) h1 hread
    rw [httl] at h
    exact h

/-- Witness for C7: a concrete miss at time 0 followed by a hit at time
100 (inside the identity reader's 180 TTL) performing no fresh read. -/
theorem cached_readers_ttl_spec_witness :
    (get_local_id_from_ap_id_cached sampleDb identCache0 0 samplePostUrl .Post).1 =
      .ok 7 ∧
    (get_local_id_from_ap_id_cached sampleDb
        ((get_local_id_from_ap_id_cached sampleDb identCache0 0 samplePostUrl
            .Post).2.2) 100 samplePostUrl .Post).2.1 = 0 := by
  refine ⟨rfl, ?_⟩
  exact (((cached_readers_ttl_spec sampleDb).1 identCache0 0 100 samplePostUrl
    .Post 7 rfl rfl rfl rfl).1 (by omega)).2
